import Mathlib

/-!
# AlphaPair trade engine — verification of the specification claims

Shallow embedding of the core of the AlphaPair pair-trade engine
(`backend/app/services/pair_trade_service.py`,
`backend/app/services/binance_service.py`) over exact rational arithmetic.
Python floats are modelled as `ℚ`; fallible calls return `Option`/explicit
outcome types; effectful call sequences are modelled as pure functions that
additionally return the list of exchange-facing actions they perform.
-/

namespace AlphaPair

/-- Python `round` to an integer: round half to even (banker's rounding),
as used by `round(x, p)` in `_calculate_trade_quantities`. -/
def roundHalfEven (x : ℚ) : ℤ :=
  let f := ⌊x⌋
  let r := x - f
  if r < 1/2 then f
  else if r > 1/2 then f + 1
  else if Even f then f else f + 1

/-- Python `round(x, p)` for nonnegative decimal precision `p`:
scale by `10^p`, round half to even, scale back. -/
def pyRound (x : ℚ) (p : ℕ) : ℚ :=
  ((roundHalfEven (x * (10:ℚ)^p) : ℤ) : ℚ) / (10:ℚ)^p

/-- Python `v or d` for a float `v`: `d` when `v` is falsy (`0.0`), else `v`.
Used for `pair_trade.max_ratio or entry_ratio` in `update_pair_trade`. -/
def pyOrZ (v d : ℚ) : ℚ := if v = 0 then d else v

/-! ## Quantity sizing (`_calculate_trade_quantities`, pair_trade_service.py 405-464)

The service computes `max_position_size = max_loss / (stop_loss / 100)`,
derives each leg's quantity as `max_position_size / price`, and applies the
symbol's declared quantity precision with Python `round`. -/

/-- Result of `_calculate_trade_quantities` (the returned dict). -/
structure TradeQuantities where
  long_price : ℚ
  short_price : ℚ
  long_quantity : ℚ
  short_quantity : ℚ
  long_leverage : ℕ
  short_leverage : ℕ
  deriving DecidableEq, Repr

/-- `_calculate_trade_quantities` (pair_trade_service.py 405-464): prices are
fetched (here passed in), rejected when nonpositive; position size is
`max_loss / (stop_loss / 100)`; each leg quantity is `size / price` rounded
with Python `round` at that symbol's precision (`precision_map.get(_, 3)`). -/
def calculateTradeQuantities (max_loss stop_loss : ℚ)
    (long_price short_price : ℚ) (long_precision short_precision : ℕ)
    (long_leverage short_leverage : ℕ) : Option TradeQuantities :=
  if long_price ≤ 0 ∨ short_price ≤ 0 then none
  else
    let max_position_size := max_loss / (stop_loss / 100)
    let long_quantity := pyRound (max_position_size / long_price) long_precision
    let short_quantity := pyRound (max_position_size / short_price) short_precision
    some ⟨long_price, short_price, long_quantity, short_quantity,
          long_leverage, short_leverage⟩

theorem roundHalfEven_dist (x : ℚ) : |((roundHalfEven x : ℤ) : ℚ) - x| ≤ 1/2 := by
  have hfr0 : (0:ℚ) ≤ x - ⌊x⌋ := by
    have := Int.floor_le x
    linarith
  have hfr1 : x - ⌊x⌋ < 1 := by
    have := Int.lt_floor_add_one x
    linarith
  unfold roundHalfEven
  by_cases h1 : x - ⌊x⌋ < 1/2
  · simp only [h1, if_true]
    rw [abs_sub_comm, abs_of_nonneg hfr0]
    linarith
  · simp only [h1, if_false]
    by_cases h2 : x - ⌊x⌋ > 1/2
    · simp only [h2, if_true]
      push_cast
      rw [abs_of_nonneg (by linarith)]
      linarith
    · simp only [h2, if_false]
      have heq : x - ⌊x⌋ = 1/2 := by linarith
      by_cases h3 : Even (⌊x⌋)
      · simp only [h3, if_true]
        rw [abs_sub_comm, abs_of_nonneg hfr0]
        linarith
      · simp only [h3, if_false]
        push_cast
        rw [abs_of_nonneg (by linarith)]
        linarith

theorem pyRound_dist (x : ℚ) (p : ℕ) :
    |pyRound x p - x| ≤ 1 / (2 * 10 ^ p) := by
  have hp : (0:ℚ) < (10:ℚ)^p := by positivity
  have h := roundHalfEven_dist (x * (10:ℚ)^p)
  unfold pyRound
  have hx : ((roundHalfEven (x * (10:ℚ)^p) : ℤ) : ℚ) / (10:ℚ)^p - x
      = (((roundHalfEven (x * (10:ℚ)^p) : ℤ) : ℚ) - x * (10:ℚ)^p) / (10:ℚ)^p := by
    field_simp
    ring
  rw [hx, abs_div, abs_of_pos hp, div_le_iff₀ hp]
  calc |((roundHalfEven (x * (10:ℚ)^p) : ℤ) : ℚ) - x * (10:ℚ)^p|
      ≤ 1/2 := h
    _ = 1 / (2 * 10 ^ p) * (10:ℚ)^p := by field_simp

/-! ## Data model (`models/pair_trade.py`)

Float fields are `ℚ`; timestamps and user identity are omitted (no claim
mentions them). `max_ratio`/`min_ratio` default to `0` as in the pydantic
model; the Python truthiness of `x or entry_ratio` is `pyOrZ`. -/

/-- `TradeStatus` (models/pair_trade.py 19-24). -/
inductive TradeStatus where
  | pending
  | active
  | closed
  | failed
  deriving DecidableEq, Repr

/-- `TradePosition` (models/pair_trade.py 27-42). -/
structure TradePosition where
  symbol : String
  side : String
  quantity : ℚ
  entry_price : ℚ
  current_price : ℚ := 0
  exit_price : ℚ := 0
  pnl : ℚ := 0
  pnl_percent : ℚ := 0
  entry_order_id : String
  notional_value : ℚ
  entry_fee : ℚ := 0
  exit_fee : ℚ := 0
  exit_order_id : String := ""
  leverage : ℚ := 1
  deriving DecidableEq, Repr

/-- `PairTrade` (models/pair_trade.py 45-83). The source makes the two
positions `Optional`; `update_pair_trade` returns unchanged when either is
missing (pair_trade_service.py 964-966), so the embedding restricts to
trades carrying both positions, which every claim presupposes. -/
structure PairTrade where
  status : TradeStatus := .pending
  max_loss : ℚ
  stop_loss : ℚ
  take_profit : ℚ
  trailing_stop_enabled : Bool := false
  trailing_stop_level : ℚ := 0
  long_position : TradePosition
  short_position : TradePosition
  total_pnl_value : ℚ := 0
  total_ratio_percent : ℚ := 0
  total_fee : ℚ := 0
  total_entry_fee : ℚ := 0
  total_exit_fee : ℚ := 0
  max_ratio : ℚ := 0
  min_ratio : ℚ := 0
  mae : ℚ := 0
  mfe : ℚ := 0
  net_pnl : ℚ := 0
  total_pnl : ℚ := 0
  risk_reward_ratio : ℚ := 0
  net_risk_reward_ratio : ℚ := 0
  close_reason : Option String := none
  deriving DecidableEq, Repr

/-! ## Per-tick evaluation (`update_pair_trade`, pair_trade_service.py 928-1220)

The tick receives the prices used for this evaluation (the monitor's
pre-fetched prices; `none` models "price unavailable", on which the source
returns the trade unchanged, lines 1009-1012, matching the Python falsy
check that also rejects a zero price). Returns
`(updated trade, should_close, close_reason)`. -/

/-- `update_pair_trade` (pair_trade_service.py 928-1220), the pure part:
ratio/PnL recomputation, extreme tracking, MAE/MFE and the closure
decision of lines 1014-1093. -/
def updatePairTrade (t : PairTrade) (longPx shortPx : Option ℚ) :
    PairTrade × Bool × Option String :=
  if t.status ≠ .active then (t, false, none)
  else
    match longPx, shortPx with
    | some long_current_price, some short_current_price =>
      if long_current_price = 0 ∨ short_current_price = 0 then (t, false, none)
      else
        let current_ratio := long_current_price / short_current_price
        let entry_ratio := t.long_position.entry_price / t.short_position.entry_price
        let ratio_percent := (current_ratio / entry_ratio - 1) * 100
        -- closure decision: trailing-stop xor stop-loss branch, then an
        -- unconditional take-profit check that overrides the reason
        let branch : Bool × Option String :=
          if t.trailing_stop_enabled then
            if ratio_percent ≤ t.trailing_stop_level then (true, some "trailing_stop")
            else (false, none)
          else
            if ratio_percent ≤ -t.stop_loss then (true, some "stop_loss")
            else (false, none)
        let decision : Bool × Option String :=
          if ratio_percent ≥ t.take_profit then (true, some "take_profit") else branch
        let long_pnl := (long_current_price - t.long_position.entry_price) * t.long_position.quantity
        let long_pnl_percent :=
          (long_current_price / t.long_position.entry_price - 1) * 100 * t.long_position.leverage
        let short_pnl := (t.short_position.entry_price - short_current_price) * t.short_position.quantity
        let short_pnl_percent :=
          (t.short_position.entry_price / short_current_price - 1) * 100 * t.short_position.leverage
        let total_pnl := long_pnl + short_pnl
        let max_ratio := max (pyOrZ t.max_ratio entry_ratio) current_ratio
        let min_ratio := min (pyOrZ t.min_ratio entry_ratio) current_ratio
        let mae := if min_ratio < entry_ratio then |min_ratio / entry_ratio - 1| * 100 else 0
        let mfe := if max_ratio > entry_ratio then |max_ratio / entry_ratio - 1| * 100 else 0
        ({ t with
            long_position := { t.long_position with
              current_price := long_current_price, pnl := long_pnl,
              pnl_percent := long_pnl_percent }
            short_position := { t.short_position with
              current_price := short_current_price, pnl := short_pnl,
              pnl_percent := short_pnl_percent }
            total_pnl_value := total_pnl
            total_ratio_percent := ratio_percent
            max_ratio := max_ratio
            min_ratio := min_ratio
            mae := mae
            mfe := mfe },
          decision.1, decision.2)
    | _, _ => (t, false, none)

/-! ## Close finalization (`_update_trade_after_closing`, pair_trade_service.py 1679-1838)

The exit prices passed in are the resolved `avgPrice` values of the two
closing orders (lines 1698-1733); an exit fee of `0` triggers the 0.05%
estimate (lines 1735-1753). -/

/-- `_update_trade_after_closing` (pair_trade_service.py 1679-1838):
fee totals, PnL, ratio extremes folded with the exit ratio, MAE/MFE
recomputation, risk/reward ratios (guarded by `max_loss > 0`), and the
transition to `closed`. -/
def updateTradeAfterClosing (t : PairTrade)
    (long_exit_price short_exit_price : ℚ)
    (long_exit_fee₀ short_exit_fee₀ : ℚ) (close_reason : String) : PairTrade :=
  let long_exit_fee :=
    if long_exit_fee₀ = 0 then long_exit_price * t.long_position.quantity * (5/10000)
    else long_exit_fee₀
  let short_exit_fee :=
    if short_exit_fee₀ = 0 then short_exit_price * t.short_position.quantity * (5/10000)
    else short_exit_fee₀
  let total_exit_fee := long_exit_fee + short_exit_fee
  let total_fee := t.total_entry_fee + total_exit_fee
  let long_pnl := (long_exit_price - t.long_position.entry_price) * t.long_position.quantity
  let short_pnl := (t.short_position.entry_price - short_exit_price) * t.short_position.quantity
  let total_pnl := long_pnl + short_pnl
  let net_pnl := total_pnl - total_fee
  let entry_ratio := t.long_position.entry_price / t.short_position.entry_price
  let current_ratio := long_exit_price / short_exit_price
  let total_ratio_percent := ((current_ratio - entry_ratio) / entry_ratio) * 100
  let max_ratio := max t.max_ratio current_ratio
  let min_ratio := min t.min_ratio current_ratio
  let ratio_mae := |(entry_ratio - min_ratio) / entry_ratio| * 100
  let ratio_mfe := |(max_ratio - entry_ratio) / entry_ratio| * 100
  { t with
      status := .closed
      close_reason := some close_reason
      max_ratio := max_ratio
      min_ratio := min_ratio
      mae := ratio_mae
      mfe := ratio_mfe
      long_position := { t.long_position with
        exit_price := long_exit_price, exit_fee := long_exit_fee,
        pnl := long_pnl,
        pnl_percent := (long_exit_price / t.long_position.entry_price - 1) * 100 }
      short_position := { t.short_position with
        exit_price := short_exit_price, exit_fee := short_exit_fee,
        pnl := short_pnl,
        pnl_percent := (t.short_position.entry_price / short_exit_price - 1) * 100 }
      total_pnl := total_pnl
      net_pnl := net_pnl
      total_pnl_value := total_pnl
      total_ratio_percent := total_ratio_percent
      total_fee := total_fee
      total_exit_fee := total_exit_fee
      risk_reward_ratio :=
        if t.max_loss > 0 then total_pnl / t.max_loss else t.risk_reward_ratio
      net_risk_reward_ratio :=
        if t.max_loss > 0 then net_pnl / t.max_loss else t.net_risk_reward_ratio }

/-! ## Open sequence (`open_pair_trade`, binance_service.py 2668-2847, and
`_execute_open_trade`, pair_trade_service.py 466-635)

The exchange-facing effects of an open attempt are recorded as a trace of
actions. `notifyUser` models a `notification_service.send_notification`
call and `markTradeFailed` a `TradeStatus.FAILED` status write; both exist
elsewhere in the repository (the close-failure handler at
pair_trade_service.py 1661 sends a notification; `FAILED` is declared at
models/pair_trade.py 24) but neither is invoked anywhere in the open
sequence, so no embedded open-path function emits them. -/

/-- Order side strings used by the gateway. -/
inductive Side where
  | buy
  | sell
  deriving DecidableEq, Repr

/-- One exchange-facing (or escalation) effect of the open sequence. -/
inductive GatewayAction where
  | setLeverage (symbol : String) (leverage : ℕ)
  | placeOrder (symbol : String) (side : Side) (quantity : ℚ) (reduceOnly : Bool)
  | logCritical
  | notifyUser
  | markTradeFailed
  deriving DecidableEq, Repr

/-- Inputs of one open attempt: the request parameters and the outcomes the
exchange would give to each of the three possible `futures_create_order`
calls (long leg, short leg, compensating close of the long leg). Prices are
the results of the two `get_futures_price` calls (`none` = unavailable). -/
structure OpenEnv where
  long_symbol : String
  short_symbol : String
  long_quantity : ℚ
  short_quantity : ℚ
  long_leverage : ℕ
  short_leverage : ℕ
  long_price : Option ℚ
  short_price : Option ℚ
  longOrderOk : Bool
  shortOrderOk : Bool
  compOrderOk : Bool
  deriving DecidableEq, Repr

/-- The dict returned by a successful `open_pair_trade`. -/
structure OpenResult where
  long_price : ℚ
  short_price : ℚ
  long_quantity : ℚ
  short_quantity : ℚ
  deriving DecidableEq, Repr

/-- Outcome of `open_pair_trade`: `none` when a price is unavailable (the
Python function returns `None`), `raised` when an order error propagates
to the caller, `success` otherwise. -/
inductive OpenOutcome where
  | noPrice
  | raised
  | success (r : OpenResult)
  deriving DecidableEq, Repr

/-- `open_pair_trade` (binance_service.py 2668-2847): fetch both prices
(abort returning `None` on a falsy price), set leverage per leg when `> 1`,
submit the long leg (an error propagates with nothing to undo), submit the
short leg, and on short-leg failure submit one compensating reduce-only
SELL of `long_quantity` on the long symbol before re-raising the short-leg
error; a compensation failure is logged at critical severity
(line 2816) and the short-leg error is still re-raised. -/
def openPairTrade (env : OpenEnv) : OpenOutcome × List GatewayAction :=
  match env.long_price, env.short_price with
  | some lp, some sp =>
    if lp = 0 ∨ sp = 0 then (.noPrice, [])
    else
      let levActs :=
        (if env.long_leverage > 1 then [GatewayAction.setLeverage env.long_symbol env.long_leverage] else [])
        ++ (if env.short_leverage > 1 then [GatewayAction.setLeverage env.short_symbol env.short_leverage] else [])
      let afterLong := levActs ++ [GatewayAction.placeOrder env.long_symbol .buy env.long_quantity false]
      if !env.longOrderOk then (.raised, afterLong)
      else
        let afterShort := afterLong ++ [GatewayAction.placeOrder env.short_symbol .sell env.short_quantity false]
        if !env.shortOrderOk then
          let afterComp := afterShort ++ [GatewayAction.placeOrder env.long_symbol .sell env.long_quantity true]
          let afterComp := if env.compOrderOk then afterComp else afterComp ++ [GatewayAction.logCritical]
          (.raised, afterComp)
        else
          (.success ⟨lp, sp, env.long_quantity, env.short_quantity⟩, afterShort)
  | _, _ => (.noPrice, [])

/-- `calculate_required_margin` (binance_service.py 3012-3046):
notional value over leverage. -/
def calculateRequiredMargin (quantity price : ℚ) (leverage : ℕ) : ℚ :=
  quantity * price / leverage

/-- The dict returned by `check_margin_sufficient`
(binance_service.py 3048-3120). `priceError` models the `error` key of the
unavailable-price branch. -/
structure MarginCheck where
  sufficient : Bool
  available_margin : ℚ
  required_margin : ℚ
  long_required : ℚ
  short_required : ℚ
  deficit : ℚ
  priceError : Bool
  deriving DecidableEq, Repr

/-- `check_margin_sufficient` (binance_service.py 3048-3120): required
margin is the sum of both legs' `notional / leverage`; sufficient iff
`available ≥ required` (no buffer); `deficit = max 0 (required - available)`
when insufficient, else `0`. -/
def checkMarginSufficient (env : OpenEnv) (available_margin : ℚ) : MarginCheck :=
  match env.long_price, env.short_price with
  | some lp, some sp =>
    if lp = 0 ∨ sp = 0 then ⟨false, available_margin, 0, 0, 0, 0, true⟩
    else
      let long_required := calculateRequiredMargin env.long_quantity lp env.long_leverage
      let short_required := calculateRequiredMargin env.short_quantity sp env.short_leverage
      let total_required := long_required + short_required
      let is_sufficient := available_margin ≥ total_required
      ⟨is_sufficient, available_margin, total_required, long_required, short_required,
        if is_sufficient then 0 else max 0 (total_required - available_margin), false⟩
  | _, _ => ⟨false, available_margin, 0, 0, 0, 0, true⟩

/-- Outcome of `_execute_open_trade`: the margin-shortfall abort carries the
figures put into the raised `-2019` exception's message
(pair_trade_service.py 491-522). -/
inductive ExecOutcome where
  | marginError (available required deficit : ℚ)
  | openFailed
  | raised
  | success (r : OpenResult)
  deriving DecidableEq, Repr

/-- `_execute_open_trade` (pair_trade_service.py 466-635): margin pre-check
first — when insufficient it raises before any leverage change or order —
then the per-leg leverage setting of lines 527-540, then
`open_pair_trade`. An exception from the open propagates (line 635). -/
def executeOpenTrade (env : OpenEnv) (available_margin : ℚ) :
    ExecOutcome × List GatewayAction :=
  let mc := checkMarginSufficient env available_margin
  if !mc.sufficient then
    (.marginError mc.available_margin mc.required_margin mc.deficit, [])
  else
    let levActs :=
      (if env.long_leverage > 1 then [GatewayAction.setLeverage env.long_symbol env.long_leverage] else [])
      ++ (if env.short_leverage > 1 then [GatewayAction.setLeverage env.short_symbol env.short_leverage] else [])
    match openPairTrade env with
    | (.noPrice, acts) => (.openFailed, levActs ++ acts)
    | (.raised, acts) => (.raised, levActs ++ acts)
    | (.success r, acts) => (.success r, levActs ++ acts)

/-- A compensating order: reduce-only flag set (the only reduce-only order
the open sequence can place). -/
def GatewayAction.isCompOrder : GatewayAction → Bool
  | .placeOrder _ _ _ true => true
  | _ => false

/-- An exchange-mutating action (leverage change or order placement). -/
def GatewayAction.isExchangeMutation : GatewayAction → Bool
  | .setLeverage _ _ => true
  | .placeOrder _ _ _ _ => true
  | _ => false

/-! ## Open-request validation (`_validate_trade_parameters`,
pair_trade_service.py 333-403) -/

/-- Python `str.endswith`, as a check on the character sequence. -/
def pyEndsWith (s suffix : String) : Bool := suffix.data.isSuffixOf s.data

/-- `_validate_trade_parameters` (pair_trade_service.py 333-403): reject
when the two raw symbols are equal, then append `"USDT"` to any symbol not
already ending in it, then require both normalized symbols to be listed on
the exchange. Returns the verdict together with the normalized symbols the
trade would be created with (the function mutates `trade_data` in place). -/
def validateTradeParameters (long_symbol short_symbol : String)
    (exchangeSymbols : List String) : Bool × String × String :=
  if long_symbol = short_symbol then (false, long_symbol, short_symbol)
  else
    let ls := if pyEndsWith long_symbol "USDT" then long_symbol else long_symbol ++ "USDT"
    let ss := if pyEndsWith short_symbol "USDT" then short_symbol else short_symbol ++ "USDT"
    if ls ∉ exchangeSymbols then (false, ls, ss)
    else if ss ∉ exchangeSymbols then (false, ls, ss)
    else (true, ls, ss)

/-! ## Price feed (`get_futures_price_ws` and the WebSocket loop,
binance_service.py 2892-2976)

The stream cache is `futures_ws_prices : symbol → price` plus a single
`futures_ws_last_heartbeat` timestamp updated on every accepted message of
any symbol (line 2915); no per-symbol timestamp exists. -/

/-- The WebSocket price-cache state of `BinanceService`. -/
structure WsState where
  prices : List (String × ℚ)
  lastHeartbeat : ℚ
  deriving DecidableEq, Repr

/-- One accepted stream message (`_futures_websocket_loop`,
binance_service.py 2908-2916): a nonempty symbol with positive price
updates that symbol's cached price and the global heartbeat. -/
def applyStreamTick (s : WsState) (sym : String) (price t : ℚ) : WsState :=
  if sym ≠ "" ∧ price > 0 then
    { prices := (sym, price) :: s.prices.filter (fun e => e.1 ≠ sym),
      lastHeartbeat := t }
  else s

/-- Replay a list of stream messages `(symbol, price, time)` from the empty
cache (the state set up by `init_futures_websocket`, lines 2880-2882). -/
def runStream (events : List (String × ℚ × ℚ)) : WsState :=
  events.foldl (fun s e => applyStreamTick s e.1 e.2.1 e.2.2) ⟨[], 0⟩

/-- Time of the last accepted stream update of `sym` in `events` —
the quantity the spec calls the streamed quote's age base. The code keeps
no such per-symbol value. -/
def lastUpdateTime (events : List (String × ℚ × ℚ)) (sym : String) : Option ℚ :=
  events.foldl
    (fun acc e => if e.1 = sym ∧ e.2.1 > 0 ∧ sym ≠ "" then some e.2.2 else acc)
    none

/-- What a price request returns: a streamed quote, or a fall back to the
pull path (`get_futures_price`, the REST call with its 15-minute cache). -/
inductive PriceSource where
  | stream (price : ℚ)
  | pullFallback
  deriving DecidableEq, Repr

/-- `get_futures_price_ws` (binance_service.py 2945-2976): if the symbol is
cached and `now - lastHeartbeat < 5`, return the streamed price; otherwise
fall back to the REST pull path. -/
def getFuturesPriceWs (s : WsState) (sym : String) (now : ℚ) : PriceSource :=
  match s.prices.lookup sym with
  | some price => if now - s.lastHeartbeat < 5 then .stream price else .pullFallback
  | none => .pullFallback

/-! ## Retry with backoff (`_api_request_with_retry`,
binance_service.py 316-389; the async variant at 391-523 shares the same
wait formulas)

The loop keeps a `retry` counter, runs while `retry ≤ max_retries` (3), and
classifies errors: timestamp skew (`-1021`) resyncs and retries with no
wait; rate limit (`-1003`) increments and, while `retry < max_retries`,
waits `base · 2^retry · (0.8 + 0.4·random())`; any other error, while
`retry < max_retries`, increments and waits
`base · 2^(retry-1) · (0.8 + 0.4·random())`, i.e. `base · 2^(k-1)` before
retry number `k`. The random draws are passed in as an input sequence. -/

/-- Error classification of one failed call, following the
`BinanceAPIException`-code branches of `_api_request_with_retry`. -/
inductive ApiError where
  | timestampSkew
  | rateLimit
  | other
  deriving DecidableEq, Repr

/-- The retry loop of `_api_request_with_retry` (binance_service.py
328-389). `outcome k` is the result of the `k`-th call (`none` = success);
`rand k` the `random.random()` draw consumed after the `k`-th call. `fuel`
bounds the loop (every continuing iteration increments `retry`, so
`maxRetries + 2` iterations suffice). Returns whether a call succeeded and
the list of waits slept, in order. -/
def retryAux (base : ℚ) (maxRetries : ℕ) (outcome : ℕ → Option ApiError)
    (rand : ℕ → ℚ) : ℕ → ℕ → ℕ → Bool × List ℚ
  | 0, _, _ => (false, [])
  | fuel + 1, attempt, retry =>
    if retry > maxRetries then (false, [])
    else
      match outcome attempt with
      | none => (true, [])
      | some .timestampSkew =>
        retryAux base maxRetries outcome rand fuel (attempt + 1) (retry + 1)
      | some .rateLimit =>
        if retry + 1 < maxRetries then
          let w := base * 2 ^ (retry + 1) * (4/5 + 2/5 * rand attempt)
          let rest := retryAux base maxRetries outcome rand fuel (attempt + 1) (retry + 1)
          (rest.1, w :: rest.2)
        else (false, [])
      | some .other =>
        if retry < maxRetries then
          let w := base * 2 ^ retry * (4/5 + 2/5 * rand attempt)
          let rest := retryAux base maxRetries outcome rand fuel (attempt + 1) (retry + 1)
          (rest.1, w :: rest.2)
        else (false, [])

/-- `_api_request_with_retry` top level: `max_retries = 3`,
`base_delay = 1.0` scaled here by `base`, counters start at zero. -/
def apiRequestWithRetry (base : ℚ) (outcome : ℕ → Option ApiError)
    (rand : ℕ → ℚ) : Bool × List ℚ :=
  retryAux base 3 outcome rand 5 0 0

/-! ## Concrete fixtures used by witnesses and counterexamples -/

/-- A long position entered at price 1, quantity 1. -/
def longPos1 : TradePosition :=
  { symbol := "BTCUSDT", side := "BUY", quantity := 1, entry_price := 1,
    entry_order_id := "1", notional_value := 1 }

/-- A short position entered at price 1, quantity 1. -/
def shortPos1 : TradePosition :=
  { symbol := "ETHUSDT", side := "SELL", quantity := 1, entry_price := 1,
    entry_order_id := "2", notional_value := 1 }

/-- An active trade with trailing stop enabled at level 2%, take-profit 10%,
stop-loss 5%, entry ratio 1. -/
def trailTrade : PairTrade :=
  { status := .active, max_loss := 100, stop_loss := 5, take_profit := 10,
    trailing_stop_enabled := true, trailing_stop_level := 2,
    long_position := longPos1, short_position := shortPos1 }

/-- `trailTrade` after the user disables the trailing-stop flag mid-trade. -/
def trailTradeOff : PairTrade := { trailTrade with trailing_stop_enabled := false }

/-! ## C3 — position sizing and quantity rounding -/

/-- C3 counterexample: the claim says each leg's quantity is rounded down
(never up). With `maxLossAmount = 6`, `stopLossPercent = 100`, leg price
100 and declared precision 1, the raw quantity is
`6 / (100/100) / 100 = 0.06`, and Python `round(0.06, 1) = 0.1 > 0.06`:
the quantity is rounded up. -/
theorem quantity_rounding_up_cex :
    calculateTradeQuantities 6 100 100 100 1 1 1 1 =
      some ⟨100, 100, 1/10, 1/10, 1, 1⟩ ∧
    (6:ℚ) / (100 / 100) / 100 < 1/10 := by
  have hfloor : ⌊(6:ℚ) / (100 / 100) / 100 * (10:ℚ)^(1:ℕ)⌋ = 0 := by
    rw [Int.floor_eq_iff]
    norm_num
  constructor
  · simp only [calculateTradeQuantities, pyRound, roundHalfEven, hfloor]
    norm_num
  · norm_num

/-- C3 (amended): for positive leg prices the position size is
`maxLossAmount / (stopLossPercent/100)`, each leg's quantity is that size
over the leg price rounded with Python `round` (round half to even) at the
symbol's declared precision — rounding to the *nearest* representable
quantity, within half of one precision unit, not always down. -/
theorem quantity_sizing_round_nearest (max_loss stop_loss lp sp : ℚ)
    (lpre spre llev slev : ℕ) (hlp : 0 < lp) (hsp : 0 < sp) :
    calculateTradeQuantities max_loss stop_loss lp sp lpre spre llev slev =
      some ⟨lp, sp, pyRound (max_loss / (stop_loss / 100) / lp) lpre,
            pyRound (max_loss / (stop_loss / 100) / sp) spre, llev, slev⟩ ∧
    |pyRound (max_loss / (stop_loss / 100) / lp) lpre
        - max_loss / (stop_loss / 100) / lp| ≤ 1 / (2 * 10 ^ lpre) ∧
    |pyRound (max_loss / (stop_loss / 100) / sp) spre
        - max_loss / (stop_loss / 100) / sp| ≤ 1 / (2 * 10 ^ spre) := by
  refine ⟨?_, pyRound_dist _ _, pyRound_dist _ _⟩
  unfold calculateTradeQuantities
  rw [if_neg]
  push_neg
  exact ⟨hlp, hsp⟩

/-- C3 witness: the amended theorem evaluated at
`maxLossAmount = 6`, `stopLossPercent = 100`, prices 100, precision 1. -/
theorem quantity_sizing_round_nearest_witness :
    calculateTradeQuantities 6 100 100 100 1 1 1 1 =
      some ⟨100, 100, pyRound ((6:ℚ) / (100 / 100) / 100) 1,
            pyRound ((6:ℚ) / (100 / 100) / 100) 1, 1, 1⟩ ∧
    |pyRound ((6:ℚ) / (100 / 100) / 100) 1 - (6:ℚ) / (100 / 100) / 100|
        ≤ 1 / (2 * 10 ^ 1) ∧
    |pyRound ((6:ℚ) / (100 / 100) / 100) 1 - (6:ℚ) / (100 / 100) / 100|
        ≤ 1 / (2 * 10 ^ 1) :=
  quantity_sizing_round_nearest 6 100 100 100 1 1 1 1 (by norm_num) (by norm_num)

/-! ## C4 — trailing-stop boundary behaviour -/

/-- C4 counterexample: the claim says a tick with
`ratioChangePercent = 1.9` does not signal closure when
`trailingStopLevelPercent = 2`. The code closes whenever
`ratio_percent ≤ trailing_stop_level` (pair_trade_service.py 1032), and
`1.9 ≤ 2`, so the tick signals closure with reason `trailing_stop`. -/
theorem trailing_stop_boundary_cex :
    (updatePairTrade trailTrade (some (1019/1000)) (some 1)).1.total_ratio_percent
      = 19/10 ∧
    (updatePairTrade trailTrade (some (1019/1000)) (some 1)).2.1 = true ∧
    (updatePairTrade trailTrade (some (1019/1000)) (some 1)).2.2
      = some "trailing_stop" := by
  norm_num [updatePairTrade, trailTrade, longPos1, shortPos1, pyOrZ]

/-- C4 (amended): with `trailingStopEnabled = true` and level 2, ticks with
`ratioChangePercent` 1.9 and 2.0 both signal closure with reason
`trailing_stop` (the trigger is `ratio_percent ≤ level`), a tick at 2.1
does not close, and disabling the flag mid-trade makes the next tick
evaluate the stop-loss branch: at 1.9 it no longer closes, and at −5 it
closes with reason `stop_loss`. -/
theorem trailing_stop_ticks :
    (updatePairTrade trailTrade (some (1019/1000)) (some 1)).2
      = (true, some "trailing_stop") ∧
    (updatePairTrade trailTrade (some (102/100)) (some 1)).2
      = (true, some "trailing_stop") ∧
    (updatePairTrade trailTrade (some (1021/1000)) (some 1)).2
      = (false, none) ∧
    (updatePairTrade trailTradeOff (some (1019/1000)) (some 1)).2
      = (false, none) ∧
    (updatePairTrade trailTradeOff (some (95/100)) (some 1)).2
      = (true, some "stop_loss") := by
  norm_num [updatePairTrade, trailTrade, trailTradeOff, longPos1, shortPos1, pyOrZ]

/-! ## C5 — ratio-extreme invariant after a tick -/

/-- C5: after any evaluation tick that actually evaluates (active trade and
both prices present and nonzero), the stored extremes bracket the current
ratio: `min_ratio ≤ longPrice/shortPrice ≤ max_ratio`. -/
theorem ratio_extremes_invariant (t : PairTrade) (lp sp : ℚ)
    (h : t.status = .active) (hlp : lp ≠ 0) (hsp : sp ≠ 0) :
    (updatePairTrade t (some lp) (some sp)).1.min_ratio ≤ lp / sp ∧
    lp / sp ≤ (updatePairTrade t (some lp) (some sp)).1.max_ratio := by
  simp only [updatePairTrade, h, hlp, hsp]
  simp only [ne_eq, not_true_eq_false, if_false, or_self, ite_false]
  exact ⟨min_le_right _ _, le_max_right _ _⟩

/-- C5 witness: the invariant at a concrete active trade and prices 2, 1. -/
theorem ratio_extremes_invariant_witness :
    (updatePairTrade trailTrade (some 2) (some 1)).1.min_ratio ≤ 2 / 1 ∧
    (2:ℚ) / 1 ≤ (updatePairTrade trailTrade (some 2) (some 1)).1.max_ratio :=
  ratio_extremes_invariant trailTrade 2 1 (by rfl) (by norm_num) (by norm_num)

/-! ## C6 — close finalization -/

/-- An active trade about to be closed: entry ratio 1, running extremes
`min_ratio = 0.9`, `max_ratio = 1`, last computed `MAE = 10`, `MFE = 0`. -/
def preCloseTrade : PairTrade :=
  { status := .active, max_loss := 100, stop_loss := 5, take_profit := 10,
    long_position := longPos1, short_position := shortPos1,
    max_ratio := 1, min_ratio := 9/10, mae := 10, mfe := 0 }

/-- C6 counterexample: the claim says MAE/MFE are frozen at their last
computed values. Finalization folds the exit ratio into the extremes and
recomputes (pair_trade_service.py 1770-1785): closing `preCloseTrade` at
exit ratio 0.8 turns the last computed `MAE = 10` into `20`. -/
theorem close_mae_not_frozen_cex :
    preCloseTrade.mae = 10 ∧
    (updateTradeAfterClosing preCloseTrade (8/10) 1 1 1 "manual").mae = 20 ∧
    (20:ℚ) ≠ 10 := by
  norm_num [updateTradeAfterClosing, preCloseTrade, longPos1, shortPos1, abs_of_nonneg]

/-- C6 (amended): for every closed trade with `maxLossAmount > 0`, the
finalized record satisfies `totalPnL = longPnL + shortPnL`,
`totalFee = entryFee + exitFee`, `netPnL = totalPnL − totalFee`,
`riskRewardRatio = totalPnL / maxLossAmount` and
`netRiskRewardRatio = netPnL / maxLossAmount` (zero-fee and negative-PnL
cases included); MAE/MFE are not frozen but recomputed after folding the
exit ratio `longExit/shortExit` into the running extremes. -/
theorem close_finalization (t : PairTrade) (lp sp lf sf : ℚ) (reason : String)
    (h : t.max_loss > 0) :
    (updateTradeAfterClosing t lp sp lf sf reason).total_pnl
        = (updateTradeAfterClosing t lp sp lf sf reason).long_position.pnl
          + (updateTradeAfterClosing t lp sp lf sf reason).short_position.pnl ∧
    (updateTradeAfterClosing t lp sp lf sf reason).total_fee
        = t.total_entry_fee + (updateTradeAfterClosing t lp sp lf sf reason).total_exit_fee ∧
    (updateTradeAfterClosing t lp sp lf sf reason).net_pnl
        = (updateTradeAfterClosing t lp sp lf sf reason).total_pnl
          - (updateTradeAfterClosing t lp sp lf sf reason).total_fee ∧
    (updateTradeAfterClosing t lp sp lf sf reason).risk_reward_ratio
        = (updateTradeAfterClosing t lp sp lf sf reason).total_pnl / t.max_loss ∧
    (updateTradeAfterClosing t lp sp lf sf reason).net_risk_reward_ratio
        = (updateTradeAfterClosing t lp sp lf sf reason).net_pnl / t.max_loss ∧
    (updateTradeAfterClosing t lp sp lf sf reason).status = .closed ∧
    (updateTradeAfterClosing t lp sp lf sf reason).close_reason = some reason ∧
    (updateTradeAfterClosing t lp sp lf sf reason).min_ratio
        = min t.min_ratio (lp / sp) ∧
    (updateTradeAfterClosing t lp sp lf sf reason).max_ratio
        = max t.max_ratio (lp / sp) ∧
    (updateTradeAfterClosing t lp sp lf sf reason).mae
        = |(t.long_position.entry_price / t.short_position.entry_price
            - min t.min_ratio (lp / sp))
           / (t.long_position.entry_price / t.short_position.entry_price)| * 100 ∧
    (updateTradeAfterClosing t lp sp lf sf reason).mfe
        = |(max t.max_ratio (lp / sp)
            - t.long_position.entry_price / t.short_position.entry_price)
           / (t.long_position.entry_price / t.short_position.entry_price)| * 100 := by
  simp [updateTradeAfterClosing, h]

/-- C6 witness: the amended finalization identities at `preCloseTrade`
closed at exit prices 0.8 and 1 with exit fees 1 and 1. -/
theorem close_finalization_witness :
    (updateTradeAfterClosing preCloseTrade (8/10) 1 1 1 "manual").total_pnl
        = (updateTradeAfterClosing preCloseTrade (8/10) 1 1 1 "manual").long_position.pnl
          + (updateTradeAfterClosing preCloseTrade (8/10) 1 1 1 "manual").short_position.pnl ∧
    (updateTradeAfterClosing preCloseTrade (8/10) 1 1 1 "manual").total_fee
        = preCloseTrade.total_entry_fee
          + (updateTradeAfterClosing preCloseTrade (8/10) 1 1 1 "manual").total_exit_fee ∧
    (updateTradeAfterClosing preCloseTrade (8/10) 1 1 1 "manual").net_pnl
        = (updateTradeAfterClosing preCloseTrade (8/10) 1 1 1 "manual").total_pnl
          - (updateTradeAfterClosing preCloseTrade (8/10) 1 1 1 "manual").total_fee ∧
    (updateTradeAfterClosing preCloseTrade (8/10) 1 1 1 "manual").risk_reward_ratio
        = (updateTradeAfterClosing preCloseTrade (8/10) 1 1 1 "manual").total_pnl
          / preCloseTrade.max_loss ∧
    (updateTradeAfterClosing preCloseTrade (8/10) 1 1 1 "manual").net_risk_reward_ratio
        = (updateTradeAfterClosing preCloseTrade (8/10) 1 1 1 "manual").net_pnl
          / preCloseTrade.max_loss ∧
    (updateTradeAfterClosing preCloseTrade (8/10) 1 1 1 "manual").status = .closed ∧
    (updateTradeAfterClosing preCloseTrade (8/10) 1 1 1 "manual").close_reason
        = some "manual" ∧
    (updateTradeAfterClosing preCloseTrade (8/10) 1 1 1 "manual").min_ratio
        = min preCloseTrade.min_ratio ((8:ℚ)/10 / 1) ∧
    (updateTradeAfterClosing preCloseTrade (8/10) 1 1 1 "manual").max_ratio
        = max preCloseTrade.max_ratio ((8:ℚ)/10 / 1) ∧
    (updateTradeAfterClosing preCloseTrade (8/10) 1 1 1 "manual").mae
        = |(preCloseTrade.long_position.entry_price
              / preCloseTrade.short_position.entry_price
            - min preCloseTrade.min_ratio ((8:ℚ)/10 / 1))
           / (preCloseTrade.long_position.entry_price
              / preCloseTrade.short_position.entry_price)| * 100 ∧
    (updateTradeAfterClosing preCloseTrade (8/10) 1 1 1 "manual").mfe
        = |(max preCloseTrade.max_ratio ((8:ℚ)/10 / 1)
            - preCloseTrade.long_position.entry_price
              / preCloseTrade.short_position.entry_price)
           / (preCloseTrade.long_position.entry_price
              / preCloseTrade.short_position.entry_price)| * 100 :=
  close_finalization preCloseTrade (8/10) 1 1 1 "manual" (by norm_num [preCloseTrade])

/-! ## C7 — margin pre-check aborts before touching the exchange -/

/-- C7: when both margin-check prices are available and the available
margin is below the two legs' total required margin, `_execute_open_trade`
raises the `-2019` shortfall error carrying the available margin, the
required margin and the deficit `required − available`, with an empty
action trace: no leverage change and no order reach the exchange. -/
theorem margin_insufficient_aborts (env : OpenEnv) (avail lp sp : ℚ)
    (hlp : env.long_price = some lp) (hsp : env.short_price = some sp)
    (hlp0 : lp ≠ 0) (hsp0 : sp ≠ 0)
    (h : avail < calculateRequiredMargin env.long_quantity lp env.long_leverage
          + calculateRequiredMargin env.short_quantity sp env.short_leverage) :
    executeOpenTrade env avail =
      (.marginError avail
        (calculateRequiredMargin env.long_quantity lp env.long_leverage
          + calculateRequiredMargin env.short_quantity sp env.short_leverage)
        (calculateRequiredMargin env.long_quantity lp env.long_leverage
          + calculateRequiredMargin env.short_quantity sp env.short_leverage - avail),
       []) := by
  have hnotge : ¬ (avail ≥ calculateRequiredMargin env.long_quantity lp env.long_leverage
      + calculateRequiredMargin env.short_quantity sp env.short_leverage) :=
    not_le.mpr h
  have hmax : max 0 (calculateRequiredMargin env.long_quantity lp env.long_leverage
      + calculateRequiredMargin env.short_quantity sp env.short_leverage - avail)
      = calculateRequiredMargin env.long_quantity lp env.long_leverage
        + calculateRequiredMargin env.short_quantity sp env.short_leverage - avail :=
    max_eq_right (by linarith)
  simp only [executeOpenTrade, checkMarginSufficient, hlp, hsp, hlp0, hsp0,
    or_self, if_false, hnotge, decide_eq_true_eq, Bool.not_eq_true', ite_false,
    decide_eq_false_iff_not, hmax]
  simp [hnotge, hmax, hlp0, hsp0]

/-- A requested open whose margin check sees prices 100 and 50, both order
legs of quantity 1 at leverage 1, all exchange calls succeeding. -/
def envOpenOk : OpenEnv :=
  { long_symbol := "BTCUSDT", short_symbol := "ETHUSDT",
    long_quantity := 1, short_quantity := 1,
    long_leverage := 1, short_leverage := 1,
    long_price := some 100, short_price := some 50,
    longOrderOk := true, shortOrderOk := true, compOrderOk := true }

/-- C7 witness: with 100 USDT available against a required margin of 150,
the open aborts with deficit 50 and an empty trace. -/
theorem margin_insufficient_aborts_witness :
    executeOpenTrade envOpenOk 100 = (.marginError 100 150 50, []) := by
  have h := margin_insufficient_aborts envOpenOk 100 100 50 rfl rfl
    (by norm_num) (by norm_num) (by norm_num [calculateRequiredMargin, envOpenOk])
  have e1 : calculateRequiredMargin envOpenOk.long_quantity 100 envOpenOk.long_leverage
      + calculateRequiredMargin envOpenOk.short_quantity 50 envOpenOk.short_leverage
      = 150 := by norm_num [calculateRequiredMargin, envOpenOk]
  rw [e1] at h
  have e2 : (150:ℚ) - 100 = 50 := by norm_num
  rw [e2] at h
  exact h

/-! ## C1 — compensation after a short-leg failure -/

/-- C1: when both prices are available, the long leg was submitted
successfully and the short-leg submission fails, `open_pair_trade` places
exactly one compensating order — reduce-only, on the long symbol, side
SELL (opposite of the long leg's BUY), with the long quantity — and the
call returns by re-raising the short-leg error, so the compensation is in
the trace before any error reaches the caller. -/
theorem open_short_failure_compensates (env : OpenEnv) (lp sp : ℚ)
    (hlp : env.long_price = some lp) (hsp : env.short_price = some sp)
    (hlp0 : lp ≠ 0) (hsp0 : sp ≠ 0)
    (hlong : env.longOrderOk = true) (hshort : env.shortOrderOk = false) :
    (openPairTrade env).1 = .raised ∧
    (openPairTrade env).2.filter GatewayAction.isCompOrder
      = [GatewayAction.placeOrder env.long_symbol .sell env.long_quantity true] := by
  rcases hc : env.compOrderOk with _ | _ <;>
    simp [openPairTrade, hlp, hsp, hlp0, hsp0, hlong, hshort, hc,
      GatewayAction.isCompOrder, List.filter_append] <;>
    split_ifs <;>
    simp [GatewayAction.isCompOrder]

/-- The open request of `envOpenOk` but with the short-leg submission
failing and the compensation succeeding. -/
def envShortFail : OpenEnv := { envOpenOk with shortOrderOk := false }

/-- C1 witness: the compensation property at `envShortFail`. -/
theorem open_short_failure_compensates_witness :
    (openPairTrade envShortFail).1 = .raised ∧
    (openPairTrade envShortFail).2.filter GatewayAction.isCompOrder
      = [GatewayAction.placeOrder envShortFail.long_symbol .sell
          envShortFail.long_quantity true] :=
  open_short_failure_compensates envShortFail 100 50 rfl rfl
    (by norm_num) (by norm_num) rfl rfl

/-! ## C2 — double failure: compensation itself fails -/

/-- The open request of `envOpenOk` with the short leg failing and the
compensating order failing too. -/
def envDoubleFail : OpenEnv :=
  { envOpenOk with shortOrderOk := false, compOrderOk := false }

/-- C2 counterexample: the claim says the double failure marks the trade
`Failed` and dispatches an urgent notification. On this path the code only
logs at critical severity and re-raises (binance_service.py 2815-2816,
pair_trade_service.py 626-635): no `TradeStatus.FAILED` write and no
`notification_service.send_notification` call occurs anywhere in the open
sequence, so neither effect is in the trace. -/
theorem double_failure_no_escalation_cex :
    ¬ (GatewayAction.markTradeFailed ∈ (openPairTrade envDoubleFail).2 ∧
       GatewayAction.notifyUser ∈ (openPairTrade envDoubleFail).2) := by
  intro h
  have hmem := h.1
  norm_num [openPairTrade, envDoubleFail, envOpenOk] at hmem
  rcases hmem with h1 | h1 | h1 | h1 <;> exact GatewayAction.noConfusion h1

/-- C2 (amended): when the compensating close itself fails, the failure is
logged at critical severity (instructing immediate manual intervention)
and the original short-leg error is re-raised to the caller — the double
failure is not silently swallowed — but the trade is not marked `Failed`
and no notification is dispatched. -/
theorem double_failure_logs_and_raises (env : OpenEnv) (lp sp : ℚ)
    (hlp : env.long_price = some lp) (hsp : env.short_price = some sp)
    (hlp0 : lp ≠ 0) (hsp0 : sp ≠ 0)
    (hlong : env.longOrderOk = true) (hshort : env.shortOrderOk = false)
    (hcomp : env.compOrderOk = false) :
    (openPairTrade env).1 = .raised ∧
    GatewayAction.logCritical ∈ (openPairTrade env).2 ∧
    GatewayAction.notifyUser ∉ (openPairTrade env).2 ∧
    GatewayAction.markTradeFailed ∉ (openPairTrade env).2 := by
  simp [openPairTrade, hlp, hsp, hlp0, hsp0, hlong, hshort, hcomp]

/-- C2 witness: the amended behaviour at `envDoubleFail`. -/
theorem double_failure_logs_and_raises_witness :
    (openPairTrade envDoubleFail).1 = .raised ∧
    GatewayAction.logCritical ∈ (openPairTrade envDoubleFail).2 ∧
    GatewayAction.notifyUser ∉ (openPairTrade envDoubleFail).2 ∧
    GatewayAction.markTradeFailed ∉ (openPairTrade envDoubleFail).2 :=
  double_failure_logs_and_raises envDoubleFail 100 50 rfl rfl
    (by norm_num) (by norm_num) rfl rfl rfl

/-! ## C8 — symbol validation and normalization order -/

/-- C8: the source checks symbol distinctness *before* appending the
`USDT` suffix (pair_trade_service.py 346-372), so the bare asset `BTC`
against `BTCUSDT` passes validation and both legs normalize to `BTCUSDT`:
a pair trade with identical long and short symbols is created, violating
the distinct-legs invariant the validation is meant to enforce (its own
rejection message says the two symbols must differ). -/
theorem validate_accepts_aliased_symbols :
    validateTradeParameters "BTC" "BTCUSDT" ["BTCUSDT"]
      = (true, "BTCUSDT", "BTCUSDT") := by decide

/-! ## C9 — streamed-quote staleness -/

/-- A stream run where BTCUSDT last updated at t=0 and ETHUSDT at t=19. -/
def twoSymbolRun : List (String × ℚ × ℚ) :=
  [("BTCUSDT", 100, 0), ("ETHUSDT", 50, 19)]

/-- C9 counterexample: the claim says a symbol whose streamed quote is 20
seconds old is served by a pull request. The staleness check compares
`now` with the connection-wide `futures_ws_last_heartbeat`
(binance_service.py 2965), which any symbol refreshes: at `now = 20`,
BTCUSDT's quote is 20 s old, yet because ETHUSDT ticked at 19 the
heartbeat is 1 s old and the stale streamed value 100 is returned. -/
theorem stale_stream_quote_cex :
    lastUpdateTime twoSymbolRun "BTCUSDT" = some 0 ∧
    (20:ℚ) - 0 ≥ 5 ∧
    getFuturesPriceWs (runStream twoSymbolRun) "BTCUSDT" 20 = .stream 100 ∧
    PriceSource.stream (100:ℚ) ≠ .pullFallback := by
  refine ⟨?_, by norm_num, ?_, by simp⟩
  · simp [lastUpdateTime, twoSymbolRun]
  · simp [getFuturesPriceWs, runStream, twoSymbolRun, applyStreamTick,
      List.lookup]
    norm_num

/-- C9 (amended): the streamed price is served iff the symbol is cached
and the *connection heartbeat* — the time of the last accepted update of
any symbol — is under 5 seconds old; otherwise, and for uncached symbols,
the request falls back to the pull path. A quote older than 5 seconds is
therefore only guaranteed to fall back when no other symbol has updated
within 5 seconds (in particular in the single-symbol case). -/
theorem stream_staleness_is_heartbeat_based (s : WsState) (sym : String) (now : ℚ) :
    (now - s.lastHeartbeat ≥ 5 → getFuturesPriceWs s sym now = .pullFallback) ∧
    (∀ p, s.prices.lookup sym = some p → now - s.lastHeartbeat < 5 →
      getFuturesPriceWs s sym now = .stream p) ∧
    (s.prices.lookup sym = none → getFuturesPriceWs s sym now = .pullFallback) := by
  refine ⟨fun h => ?_, fun p hp hlt => ?_, fun hn => ?_⟩
  · unfold getFuturesPriceWs
    cases hl : s.prices.lookup sym with
    | none => rfl
    | some p => simp [hl, not_lt.mpr h]
  · simp [getFuturesPriceWs, hp, hlt]
  · simp [getFuturesPriceWs, hn]

/-- C9 witness: in a single-symbol run whose only quote is 20 seconds old,
the heartbeat is equally old and the request falls back to the pull path. -/
theorem stream_staleness_is_heartbeat_based_witness :
    getFuturesPriceWs (runStream [("BTCUSDT", 100, 0)]) "BTCUSDT" 20
      = .pullFallback :=
  (stream_staleness_is_heartbeat_based (runStream [("BTCUSDT", 100, 0)])
    "BTCUSDT" 20).1 (by simp [runStream, applyStreamTick]; norm_num)

/-! ## C10 — retry backoff schedule -/

/-- C10 counterexample: the claim says every retried call waits
`d · 2^(k-1) · jitter` before retry `k`. A rate-limited call (code
`-1003`) waits `d · 2^k · jitter` instead (binance_service.py 356): with
`d = 1` and `random() = 1/2` (jitter factor exactly 1), the first wait is
2, not `1 · 2^0 · 1 = 1`; the loop then waits 4 and gives up. -/
theorem rate_limit_backoff_cex :
    apiRequestWithRetry 1 (fun _ => some .rateLimit) (fun _ => 1/2)
      = (false, [2, 4]) ∧
    (2:ℚ) ≠ 1 * 2 ^ 0 * (4/5 + 2/5 * (1/2)) := by
  constructor
  · norm_num [apiRequestWithRetry, retryAux]
  · norm_num

/-- C10 (amended): for unclassified (non-timestamp, non-rate-limit)
errors the wait before retry `k` is `d · 2^(k-1) · (0.8 + 0.4·random())`
and the loop gives up after 3 retries; rate-limited errors instead wait
`d · 2^k · jitter` (and stop sleeping one retry earlier), and
timestamp-skew errors retry immediately with no wait. -/
theorem backoff_schedule (base : ℚ) (rand : ℕ → ℚ) :
    apiRequestWithRetry base (fun _ => some .other) rand
      = (false, [base * 2 ^ 0 * (4/5 + 2/5 * rand 0),
                 base * 2 ^ 1 * (4/5 + 2/5 * rand 1),
                 base * 2 ^ 2 * (4/5 + 2/5 * rand 2)]) ∧
    apiRequestWithRetry base (fun _ => some .rateLimit) rand
      = (false, [base * 2 ^ 1 * (4/5 + 2/5 * rand 0),
                 base * 2 ^ 2 * (4/5 + 2/5 * rand 1)]) ∧
    apiRequestWithRetry base (fun _ => some .timestampSkew) rand
      = (false, []) := by
  refine ⟨?_, ?_, ?_⟩ <;> norm_num [apiRequestWithRetry, retryAux]

end AlphaPair
